import Mathlib

/-!
Verification of the VaRA-Tool-Suite experiment pipeline against its
specification.  The definitions below are a shallow embedding of the
Python sources:

  * varats/experiments/taint_propagation.py   (VaraMTFACheck, VaRATaintPropagation)
  * varats/experiments/CommitAnnotationReport.py (CommitAnnotationReport)
  * varats/tools/driver_build_setup.py        (parse_string_to_build_type)

Pure values (file names, step lists, chain structure) are embedded as
Lean data; the filesystem is an explicit set of existing paths (a list
of strings) threaded through the functions that touch it; external
command outcomes are parameters of the embedding.
-/

namespace VaraTS

/-- varats.data.report.FileStatusExtension: the report-artifact kinds.
The spec (section 3, ReportArtifact) lists exactly Success, Failed and
CompileError; the module itself is not under src so the enumeration is
modelled from the spec. -/
inductive FileStatusExtension
  | Success
  | Failed
  | CompileError
  deriving DecidableEq, Repr

/-- Modelled from the spec: the kind-suffix that FileStatusExtension
contributes to a report file name (section 6: names end in a kind-suffix
that distinguishes Success / Failed / CompileError).  The concrete
suffix strings are not given in the spec; only their distinctness is
used below. -/
def kindSuffix : FileStatusExtension → String
  | .Success => "success"
  | .Failed => "failed"
  | .CompileError => "cerror"

/-- Modelled from the spec: TaintPropagationReport.get_file_name
(varats.data.reports.taint_report is not under src).  Section 6: report
artifacts are named deterministically as
binary_name, project_version, run_id joined by dashes, followed by a
dot, the kind-suffix and an optional file-type suffix.  The project
name is accepted (the call sites pass it) but does not appear in the
name, following the spec's naming scheme. -/
def get_file_name (_projectName binaryName projectVersion projectUuid : String)
    (ext : FileStatusExtension) (fileExt : Option String) : String :=
  binaryName ++ "-" ++ projectVersion ++ "-" ++ projectUuid ++ "." ++ kindSuffix ext ++
    (match fileExt with
     | none => ""
     | some e => "." ++ e)

/-- Modelled from the spec: TaintPropagationReport.FILE_TYPE, the
file-type suffix attached to Failed taint reports (section 3: optional
file-type suffix).  The concrete value is not under src; any fixed
non-empty string plays the same role. -/
def TPR_FILE_TYPE : String := "yaml"

/-- The project attributes the embedded code reads (name, version,
run_uuid, BIN_NAMES; benchbuild.project.Project is external and is
modelled by the fields the src files use). -/
structure ProjectInfo where
  name : String
  version : String
  runUuid : String
  binNames : List String
  deriving DecidableEq, Repr

/-- VaraMTFACheck.RESULT_FOLDER_TEMPLATE (taint_propagation.py line 44):
"{result_dir}/{project_dir}" with .format applied. -/
def RESULT_FOLDER_TEMPLATE (resultDir projectDir : String) : String :=
  resultDir ++ "/" ++ projectDir

/-- The pipeline step constructors appended by the two
actions_for_project implementations.  Compile and Clean are
benchbuild.utils.actions steps; the rest are the repository's own Step
subclasses. -/
inductive StepT
  | compile
  | extract
  | prepare
  | varaMTFACheck
  | analyse
  | clean
  deriving DecidableEq, Repr

/-- The cache-check loop of VaRATaintPropagation.actions_for_project
(taint_propagation.py lines 184-199): iterate over BIN_NAMES, fold the
per-binary cache-file existence into all_cache_files_present with &=,
and on the first iteration where the accumulator is false append
Compile and Extract and break.  The argument present holds the
per-binary existence bits in BIN_NAMES order. -/
def cacheCheckLoop (allPresent : Bool) : List Bool → List StepT
  | [] => []
  | b :: rest =>
    let acc := allPresent && b
    if acc then cacheCheckLoop acc rest
    else [StepT.compile, StepT.extract]

/-- VaRATaintPropagation.actions_for_project step assembly
(taint_propagation.py lines 181-204): the cache loop's appends, then
VaraMTFACheck, then actions.Clean. -/
def taintActions (present : List Bool) : List StepT :=
  cacheCheckLoop true present ++ [StepT.varaMTFACheck, StepT.clean]

/-- CommitAnnotationReport.actions_for_project step assembly
(CommitAnnotationReport.py lines 148-158): if the project bitcode file
is absent append Prepare, Compile, Extract; then Analyse, then
actions.Clean.  bcPresent is the os.path.exists result for the single
cached bitcode file. -/
def commitAnnotationActions (bcPresent : Bool) : List StepT :=
  (if bcPresent then [] else [StepT.prepare, StepT.compile, StepT.extract]) ++
    [StepT.analyse, StepT.clean]

theorem cacheCheckLoop_eq (present : List Bool) :
    cacheCheckLoop true present =
      if present.all id then [] else [StepT.compile, StepT.extract] := by
  induction present with
  | nil => rfl
  | cons b rest ih =>
    cases b with
    | false => simp [cacheCheckLoop]
    | true => simpa [cacheCheckLoop] using ih

/-- C1: the assembled taint-propagation pipeline skips build and
extract exactly when the bitcode cache file exists for every binary
name: with all cache bits true the action list is
[VaraMTFACheck, Clean] with no Compile and no Extract; with any bit
false it is [Compile, Extract, VaraMTFACheck, Clean], exactly one
Compile and one Extract, both before the analysis step.  The
CommitAnnotationReport assembly behaves the same way for its single
project-level cache file. -/
theorem taint_cache_skip_correct :
    (∀ present : List Bool, present.all id = true →
      taintActions present = [StepT.varaMTFACheck, StepT.clean] ∧
      StepT.compile ∉ taintActions present ∧ StepT.extract ∉ taintActions present) ∧
    (∀ present : List Bool, present.all id = false →
      taintActions present =
        [StepT.compile, StepT.extract, StepT.varaMTFACheck, StepT.clean] ∧
      (taintActions present).count StepT.compile = 1 ∧
      (taintActions present).count StepT.extract = 1) ∧
    commitAnnotationActions true = [StepT.analyse, StepT.clean] ∧
    commitAnnotationActions false =
      [StepT.prepare, StepT.compile, StepT.extract, StepT.analyse, StepT.clean] := by
  refine ⟨?_, ?_, rfl, rfl⟩
  · intro present h
    rw [taintActions, cacheCheckLoop_eq, h]
    refine ⟨rfl, ?_, ?_⟩ <;> decide
  · intro present h
    rw [taintActions, cacheCheckLoop_eq, h]
    refine ⟨rfl, ?_, ?_⟩ <;> decide

/-- C1 witness: the theorem applied at the concrete cache states
[true] (all present) and [true, false] (one missing). -/
theorem taint_cache_skip_correct_witness :
    taintActions [true] = [StepT.varaMTFACheck, StepT.clean] ∧
    taintActions [true, false] =
      [StepT.compile, StepT.extract, StepT.varaMTFACheck, StepT.clean] :=
  ⟨(taint_cache_skip_correct.1 [true] (by decide)).1,
   (taint_cache_skip_correct.2.1 [true, false] (by decide)).1⟩

/-- The filesystem as the set of existing file paths. -/
abbrev FS := List String

/-- Creating/overwriting a file at the given path. -/
def fsWrite (f : String) (fs : FS) : FS := if f ∈ fs then fs else f :: fs

/-- benchbuild.utils.cmd.rm applied to one path. -/
def fsRm (f : String) (fs : FS) : FS := fs.filter (fun g => g ≠ f)

/-- The outcome of executing the analysis command chain for one binary:
it succeeds, a stage exits non-zero, or the timeout utility kills the
bounded stage (which also surfaces as a non-zero exit, hence a
ProcessExecutionError). -/
inductive ChainOutcome
  | success
  | exitFailure
  | timeout
  deriving DecidableEq, Repr

/-- VaraMTFACheck.analyze, timeout duration (taint_propagation.py line
76). -/
def timeout_duration : String := "8h"

/-- The argument record of
varats.utils.experiment_util.PEErrorHandler as constructed by the src
call sites: a report folder, an error-report file name, and the
optional timeout value passed along for diagnosis
(taint_propagation.py lines 131-132 pass the chain's timeout; the
compile-step handler at lines 168-177 passes none). -/
structure PEErrorHandler where
  folder : String
  errorFile : String
  timeoutDuration : Option String
  deriving DecidableEq, Repr

/-- Modelled from the spec: PEErrorHandler's failure action
(varats.utils.experiment_util is not under src).  Section 4.3: on
failure the interceptor writes a ReportArtifact with the configured
name into the configured folder. -/
def PEErrorHandler.writeReport (h : PEErrorHandler) (fs : FS) : FS :=
  fsWrite (h.folder ++ "/" ++ h.errorFile) fs

/-- The Success result file name of VaraMTFACheck.analyze for one
binary (taint_propagation.py lines 86-91). -/
def mtfaResultFile (p : ProjectInfo) (binaryName : String) : String :=
  get_file_name p.name binaryName p.version p.runUuid .Success none

/-- The Failed error file name of VaraMTFACheck.analyze for one binary
(taint_propagation.py lines 94-100): kind Failed with file_ext
TPR.FILE_TYPE. -/
def mtfaErrorFile (p : ProjectInfo) (binaryName : String) : String :=
  get_file_name p.name binaryName p.version p.runUuid .Failed (some TPR_FILE_TYPE)

/-- The PEErrorHandler that VaraMTFACheck.analyze installs around the
command chain of one binary (taint_propagation.py lines 131-132): the
result folder, the Failed-kind error file, and the chain's timeout
duration.  The same handler serves every failure cause; no other
handler exists in the step. -/
def mtfaErrorHandler (varaResultFolder : String) (p : ProjectInfo)
    (binaryName : String) : PEErrorHandler :=
  { folder := varaResultFolder
  , errorFile := mtfaErrorFile p binaryName
  , timeoutDuration := some timeout_duration }

/-- The filesystem effect of VaraMTFACheck.analyze for one binary
(taint_propagation.py lines 122-137).  The chain redirects into the
Success result file; preWritten says whether the redirection created
that file before the failure was detected.  On success the result file
is written and nothing else happens.  On any ProcessExecutionError
(non-zero exit or timeout) the handler writes the error report, then
the except branch removes the result file with rm. -/
def analyzeBinary (varaResultFolder : String) (p : ProjectInfo)
    (binaryName : String) (outcome : ChainOutcome) (preWritten : Bool)
    (fs : FS) : FS :=
  let resPath := varaResultFolder ++ "/" ++ mtfaResultFile p binaryName
  match outcome with
  | .success => fsWrite resPath fs
  | _ =>
    fsRm resPath
      ((mtfaErrorHandler varaResultFolder p binaryName).writeReport
        (if preWritten then fsWrite resPath fs else fs))

/-- The observable side channels of VaraMTFACheck.analyze besides
report files: the mkdir -p of the result folder and the external
command chain run for each binary. -/
inductive Effect
  | mkdirP (dir : String)
  | runChain (binaryName : String)
  deriving DecidableEq, Repr

/-- VaraMTFACheck.analyze (taint_propagation.py lines 53-137).  self.obj
is the attached project; a falsy value (None) is modelled as none.  The
guard at lines 61-62 returns before the mkdir, before any name
computation and before any command runs.  Otherwise the result folder
is created and the per-binary chains run in BIN_NAMES order, with the
per-binary filesystem effect of analyzeBinary. -/
def analyze (obj : Option ProjectInfo) (outfileDir : String)
    (outcome : String → ChainOutcome) (preWritten : String → Bool)
    (fs : FS) : FS × List Effect :=
  match obj with
  | none => (fs, [])
  | some project =>
    let folder := RESULT_FOLDER_TEMPLATE outfileDir project.name
    let step := fun (acc : FS × List Effect) (binaryName : String) =>
      (analyzeBinary folder project binaryName (outcome binaryName)
        (preWritten binaryName) acc.1,
       acc.2 ++ [Effect.runChain binaryName])
    project.binNames.foldl step (fs, [Effect.mkdirP folder])

/-- The stages the src composes into the analysis chain: a base
external command, or the timeout utility wrapping an inner command with
a wall-clock bound (benchbuild.utils.cmd.timeout). -/
inductive ChainCmd
  | base (tool : String) (args : List String)
  | timeoutWrap (duration : String) (inner : ChainCmd)
  deriving DecidableEq, Repr

/-- vara_run_cmd (taint_propagation.py lines 113-117): opt with the
VaRA flags over the cached bitcode file. -/
def vara_run_command (bcCacheDir bcTargetFile : String) : ChainCmd :=
  .base "opt" ["-vara-CD", "-print-Full-MTFA",
    bcCacheDir ++ "/" ++ bcTargetFile, "-o", "/dev/null"]

/-- file_check_cmd (taint_propagation.py lines 119-120): FileCheck
against the expected-output file. -/
def file_check_cmd (tmpRepoDir expectedFile : String) : ChainCmd :=
  .base "FileCheck" [tmpRepoDir ++ expectedFile]

/-- cmd_chain (taint_propagation.py lines 122-125): the pipeline
timeout[8h, vara_run_cmd] | file_check_cmd redirected into the result
file.  The timeout utility is applied to vara_run_cmd alone; the
FileCheck stage stands outside it. -/
def cmd_chain (bcCacheDir bcTargetFile tmpRepoDir expectedFile
    outputPath : String) : List ChainCmd × String :=
  ([ChainCmd.timeoutWrap timeout_duration (vara_run_command bcCacheDir bcTargetFile),
    file_check_cmd tmpRepoDir expectedFile], outputPath)

/-- Whether a stage of the chain is wrapped by the timeout utility,
i.e. whether the declared wall-clock bound applies to it. -/
def underTimeout : ChainCmd → Bool
  | .timeoutWrap _ _ => true
  | .base _ _ => false

theorem mem_fsWrite (g f : String) (fs : FS) : g ∈ fsWrite f fs ↔ g = f ∨ g ∈ fs := by
  unfold fsWrite
  split
  · constructor
    · exact Or.inr
    · rintro (rfl | hg)
      · assumption
      · assumption
  · simp [List.mem_cons]

theorem mem_fsRm (g f : String) (fs : FS) : g ∈ fsRm f fs ↔ g ∈ fs ∧ g ≠ f := by
  simp [fsRm, List.mem_filter]

theorem length_dash : ("-" : String).length = 1 := rfl

theorem length_dot : ("." : String).length = 1 := rfl

theorem length_empty : ("" : String).length = 0 := rfl

theorem length_success_suffix : (kindSuffix .Success).length = 7 := rfl

theorem length_failed_suffix : (kindSuffix .Failed).length = 6 := rfl

theorem length_cerror_suffix : (kindSuffix .CompileError).length = 6 := rfl

theorem length_tpr_file_type : TPR_FILE_TYPE.length = 4 := rfl

theorem mtfaResultFile_length (p : ProjectInfo) (bn : String) :
    (mtfaResultFile p bn).length =
      bn.length + p.version.length + p.runUuid.length + 10 := by
  simp only [mtfaResultFile, get_file_name, String.length_append,
    length_dash, length_dot, length_empty, length_success_suffix]
  omega

theorem mtfaErrorFile_length (p : ProjectInfo) (bn : String) :
    (mtfaErrorFile p bn).length =
      bn.length + p.version.length + p.runUuid.length + 14 := by
  simp only [mtfaErrorFile, get_file_name, String.length_append,
    length_dash, length_dot, length_failed_suffix, length_tpr_file_type]
  omega

/-- The Success result file and the Failed error file of the same
identity never coincide: their kind suffixes give them different
lengths. -/
theorem mtfaResultFile_ne_errorFile (p : ProjectInfo) (bn : String) :
    mtfaResultFile p bn ≠ mtfaErrorFile p bn := by
  intro h
  have hl := congrArg String.length h
  rw [mtfaResultFile_length, mtfaErrorFile_length] at hl
  omega

theorem mtfaResultPath_ne_errorPath (folder : String) (p : ProjectInfo)
    (bn : String) :
    folder ++ "/" ++ mtfaResultFile p bn ≠ folder ++ "/" ++ mtfaErrorFile p bn := by
  intro h
  have hd := congrArg String.data h
  rw [String.data_append, String.data_append] at hd
  exact mtfaResultFile_ne_errorFile p bn
    (String.ext (List.append_cancel_left hd))

/-- The concrete identity used by the closed counterexample and witness
statements. -/
def sampleProject : ProjectInfo :=
  { name := "proj", version := "v1", runUuid := "u1", binNames := ["bin"] }

/-- C2 counterexample: a successful run does not delete a stale Failed
artifact of the same identity.  Starting from a filesystem holding only
the Failed artifact of (proj, bin, v1, u1), a successful analysis run
leaves both the Success and the Failed artifact on disk, so more than
one outcome artifact exists and the stale Failed artifact did not
match the most recent (successful) run. -/
theorem stale_failed_artifact_survives_success :
    "out/proj" ++ "/" ++ mtfaResultFile sampleProject "bin" ∈
      analyzeBinary "out/proj" sampleProject "bin" .success false
        ["out/proj" ++ "/" ++ mtfaErrorFile sampleProject "bin"] ∧
    "out/proj" ++ "/" ++ mtfaErrorFile sampleProject "bin" ∈
      analyzeBinary "out/proj" sampleProject "bin" .success false
        ["out/proj" ++ "/" ++ mtfaErrorFile sampleProject "bin"] ∧
    "out/proj" ++ "/" ++ mtfaResultFile sampleProject "bin" ≠
      "out/proj" ++ "/" ++ mtfaErrorFile sampleProject "bin" := by
  refine ⟨?_, ?_, ?_⟩ <;> decide

/-- C2 amended: on a failed run the Success artifact is removed and the
Failed report written, so of the two outcome artifacts of the identity
only the Failed one remains; on a successful run the Success artifact
is written but a stale Failed artifact of the same identity is NOT
removed — it is present afterwards exactly when it was present
before, so both artifacts can coexist after a success. -/
theorem analyze_outcome_artifacts (folder : String) (p : ProjectInfo)
    (bn : String) (fs : FS) (pre : Bool) (o : ChainOutcome) :
    (o ≠ .success →
      folder ++ "/" ++ mtfaResultFile p bn ∉ analyzeBinary folder p bn o pre fs ∧
      folder ++ "/" ++ mtfaErrorFile p bn ∈ analyzeBinary folder p bn o pre fs) ∧
    (folder ++ "/" ++ mtfaResultFile p bn ∈ analyzeBinary folder p bn .success pre fs ∧
      (folder ++ "/" ++ mtfaErrorFile p bn ∈ analyzeBinary folder p bn .success pre fs ↔
        folder ++ "/" ++ mtfaErrorFile p bn ∈ fs)) := by
  constructor
  · intro ho
    have hstep : analyzeBinary folder p bn o pre fs =
        fsRm (folder ++ "/" ++ mtfaResultFile p bn)
          ((mtfaErrorHandler folder p bn).writeReport
            (if pre then fsWrite (folder ++ "/" ++ mtfaResultFile p bn) fs else fs)) := by
      cases o with
      | success => exact absurd rfl ho
      | exitFailure => rfl
      | timeout => rfl
    rw [hstep]
    constructor
    · rw [mem_fsRm]
      rintro ⟨-, hne⟩
      exact hne rfl
    · rw [mem_fsRm, PEErrorHandler.writeReport]
      refine ⟨?_, (mtfaResultPath_ne_errorPath folder p bn).symm⟩
      rw [mem_fsWrite]
      exact Or.inl rfl
  · constructor
    · show folder ++ "/" ++ mtfaResultFile p bn ∈
        fsWrite (folder ++ "/" ++ mtfaResultFile p bn) fs
      rw [mem_fsWrite]
      exact Or.inl rfl
    · show folder ++ "/" ++ mtfaErrorFile p bn ∈
        fsWrite (folder ++ "/" ++ mtfaResultFile p bn) fs ↔ _
      rw [mem_fsWrite]
      have hne := (mtfaResultPath_ne_errorPath folder p bn).symm
      simp [hne]

/-- C2 witness: the amended theorem applied at the concrete identity,
on a failed run starting from a filesystem holding the Success
artifact. -/
theorem analyze_outcome_artifacts_witness :
    "out/proj" ++ "/" ++ mtfaResultFile sampleProject "bin" ∉
      analyzeBinary "out/proj" sampleProject "bin" .exitFailure false
        ["out/proj" ++ "/" ++ mtfaResultFile sampleProject "bin"] ∧
    "out/proj" ++ "/" ++ mtfaErrorFile sampleProject "bin" ∈
      analyzeBinary "out/proj" sampleProject "bin" .exitFailure false
        ["out/proj" ++ "/" ++ mtfaResultFile sampleProject "bin"] :=
  (analyze_outcome_artifacts "out/proj" sampleProject "bin"
    ["out/proj" ++ "/" ++ mtfaResultFile sampleProject "bin"] false
    .exitFailure).1 (by decide)

/-- C3 counterexample: a timeout run is not reported with a kind
distinct from an exit failure.  At the concrete identity the whole
filesystem effect of a timeout run is identical to that of a
nonzero-exit run, and the error report used for both carries kind
Failed — the FileStatusExtension taxonomy has no timeout kind at
all. -/
theorem timeout_not_distinct_kind :
    analyzeBinary "out/proj" sampleProject "bin" .timeout false [] =
      analyzeBinary "out/proj" sampleProject "bin" .exitFailure false [] ∧
    (mtfaErrorHandler "out/proj" sampleProject "bin").errorFile =
      get_file_name "proj" "bin" "v1" "u1" .Failed (some TPR_FILE_TYPE) :=
  ⟨rfl, rfl⟩

/-- C3 amended: a timeout run is reported through the same
PEErrorHandler and the same Failed-kind error file as a nonzero-exit
failure — the two failure causes produce identical filesystem
outcomes — and the handler carries the declared timeout duration
(8h) for diagnosis; no distinct timeout kind exists. -/
theorem timeout_reported_as_failed (folder : String) (p : ProjectInfo)
    (bn : String) (pre : Bool) (fs : FS) :
    analyzeBinary folder p bn .timeout pre fs =
      analyzeBinary folder p bn .exitFailure pre fs ∧
    (mtfaErrorHandler folder p bn).errorFile =
      get_file_name p.name bn p.version p.runUuid .Failed (some TPR_FILE_TYPE) ∧
    (mtfaErrorHandler folder p bn).timeoutDuration = some "8h" :=
  ⟨rfl, rfl, rfl⟩

/-- C4 counterexample: the declared wall-clock timeout does not bound
every stage of the chain.  In the chain built for a concrete binary,
not every stage is wrapped by the timeout utility: the FileCheck
verification stage stands outside it. -/
theorem chain_not_fully_bounded :
    ((cmd_chain "cache" "proj-bin-v1.bc" "tmp/" "bin.txt" "out").1.all
      underTimeout) = false ∧
    underTimeout (file_check_cmd "tmp/" "bin.txt") = false := by
  constructor <;> rfl

/-- C4 amended: the chain always consists of exactly two stages, the
timeout utility applied to the opt analysis command and the FileCheck
verification command; the declared 8h bound wraps only the first
stage, and the FileCheck stage is not under any timeout. -/
theorem chain_timeout_first_stage_only (bcCacheDir bcTargetFile tmpRepoDir
    expectedFile outputPath : String) :
    (cmd_chain bcCacheDir bcTargetFile tmpRepoDir expectedFile outputPath).1 =
      [ChainCmd.timeoutWrap "8h" (vara_run_command bcCacheDir bcTargetFile),
        file_check_cmd tmpRepoDir expectedFile] ∧
    underTimeout (ChainCmd.timeoutWrap "8h" (vara_run_command bcCacheDir bcTargetFile)) = true ∧
    underTimeout (file_check_cmd tmpRepoDir expectedFile) = false :=
  ⟨rfl, rfl, rfl⟩

/-- C9: when the attached project object is falsy the analyze step
returns immediately: the filesystem is returned unchanged and no
effect — no mkdir, no external command — is produced. -/
theorem analyze_none_noop (outfileDir : String)
    (outcome : String → ChainOutcome) (preWritten : String → Bool) (fs : FS) :
    analyze none outfileDir outcome preWritten fs = (fs, []) :=
  rfl

/-- Modelled from the spec: the pipeline runner over the assembled
step list (benchbuild's runner is not under src).  Section 4.4:
steps execute strictly in order, every step's action is invoked
regardless of earlier steps' outcomes — a failure does not abort the
remaining sequence — and each step's individual outcome is recorded.
The outcome argument gives each step's success or failure. -/
def runPipeline (outcome : StepT → Bool) (steps : List StepT) :
    List (StepT × Bool) :=
  steps.map (fun s => (s, outcome s))

/-- C6: for every cache state and every assignment of outcomes to the
earlier steps, the action lists assembled by both actions_for_project
implementations end with the Clean step, and the run executes and
records the Clean step regardless of the other steps' outcomes. -/
theorem cleanup_always_last_and_runs (present : List Bool) (bc : Bool)
    (outcome : StepT → Bool) :
    (taintActions present).getLast? = some StepT.clean ∧
    (runPipeline outcome (taintActions present)).getLast? =
      some (StepT.clean, outcome StepT.clean) ∧
    (StepT.clean, outcome StepT.clean) ∈ runPipeline outcome (taintActions present) ∧
    (commitAnnotationActions bc).getLast? = some StepT.clean ∧
    (StepT.clean, outcome StepT.clean) ∈
      runPipeline outcome (commitAnnotationActions bc) := by
  have h := cacheCheckLoop_eq present
  rcases hall : present.all id <;> rcases bc <;>
    simp_all [taintActions, commitAnnotationActions, runPipeline, List.getLast?]

/-- Modelled from the spec: FunctionPEErrorWrapper
(varats.utils.experiment_util is not under src).  Section 4.3: it wraps
a fallible callable together with a PEErrorHandler; on success the
wrapper adds nothing, on failure the handler writes its failure report
into its configured folder. -/
def FunctionPEErrorWrapper (callFails : Bool) (h : PEErrorHandler)
    (fs : FS) : FS :=
  if callFails then h.writeReport fs else fs

/-- The PEErrorHandler installed around project.compile by
VaRATaintPropagation.actions_for_project (taint_propagation.py lines
166-177): the folder is RESULT_FOLDER_TEMPLATE applied to the outfile
directory and the project name, the report file is get_file_name with
the literal binary name "all" and kind CompileError, and no timeout
value is passed. -/
def compileErrorHandler (outfileDir : String) (p : ProjectInfo) :
    PEErrorHandler :=
  { folder := RESULT_FOLDER_TEMPLATE outfileDir p.name
  , errorFile := get_file_name p.name "all" p.version p.runUuid .CompileError none
  , timeoutDuration := none }

theorem compileErrorFile_length (outfileDir : String) (p : ProjectInfo) :
    (compileErrorHandler outfileDir p).errorFile.length =
      p.version.length + p.runUuid.length + 12 := by
  simp only [compileErrorHandler, get_file_name, String.length_append,
    length_dash, length_dot, length_empty, length_cerror_suffix]
  have hall : ("all" : String).length = 3 := rfl
  omega

/-- C7: a failure of the wrapped compile step is surfaced as a report
of kind CompileError in the configured result folder: the installed
handler's folder is RESULT_FOLDER_TEMPLATE(outfile, project name), its
report file is the CompileError-kind file name, the failure writes
exactly that file there, and the file differs from the Failed-kind
error file of every binary of the project. -/
theorem compile_failure_surfaced_as_compile_error (outfileDir : String)
    (p : ProjectInfo) (fs : FS) :
    (compileErrorHandler outfileDir p).folder =
      RESULT_FOLDER_TEMPLATE outfileDir p.name ∧
    (compileErrorHandler outfileDir p).errorFile =
      get_file_name p.name "all" p.version p.runUuid .CompileError none ∧
    (compileErrorHandler outfileDir p).folder ++ "/" ++
        (compileErrorHandler outfileDir p).errorFile ∈
      FunctionPEErrorWrapper true (compileErrorHandler outfileDir p) fs ∧
    (∀ bn : String,
      (compileErrorHandler outfileDir p).errorFile ≠ mtfaErrorFile p bn) := by
  refine ⟨rfl, rfl, ?_, ?_⟩
  · show _ ∈ fsWrite _ fs
    rw [mem_fsWrite]
    exact Or.inl rfl
  · intro bn h
    have hl := congrArg String.length h
    rw [compileErrorFile_length, mtfaErrorFile_length] at hl
    omega

/-- C10: the compile-error handler encodes the fixed literal binary
name "all" regardless of the project's actual binary names: two
projects agreeing on name, version and run id get the identical
handler whatever their BIN_NAMES are, and a compilation failure adds
exactly the one CompileError path — every file of the resulting
filesystem is that single path or was already present. -/
theorem compile_error_uses_binary_all (outfileDir : String)
    (p q : ProjectInfo) (fs : FS) :
    (compileErrorHandler outfileDir p).errorFile =
      get_file_name p.name "all" p.version p.runUuid .CompileError none ∧
    (p.name = q.name → p.version = q.version → p.runUuid = q.runUuid →
      compileErrorHandler outfileDir p = compileErrorHandler outfileDir q) ∧
    (∀ g, g ∈ FunctionPEErrorWrapper true (compileErrorHandler outfileDir p) fs ↔
      (g = (compileErrorHandler outfileDir p).folder ++ "/" ++
            (compileErrorHandler outfileDir p).errorFile ∨ g ∈ fs)) := by
  refine ⟨rfl, ?_, ?_⟩
  · intro h1 h2 h3
    simp [compileErrorHandler, RESULT_FOLDER_TEMPLATE, get_file_name, h1, h2, h3]
  · intro g
    show g ∈ fsWrite _ fs ↔ _
    rw [mem_fsWrite]

/-- C10 witness: two concrete projects with the same identity but
different BIN_NAMES get the identical compile-error handler. -/
theorem compile_error_uses_binary_all_witness :
    compileErrorHandler "out" sampleProject =
      compileErrorHandler "out"
        { name := "proj", version := "v1", runUuid := "u1",
          binNames := ["bin", "other"] } :=
  (compile_error_uses_binary_all "out" sampleProject
    { name := "proj", version := "v1", runUuid := "u1",
      binNames := ["bin", "other"] } []).2.1 rfl rfl rfl

/-- varats.vara_manager.BuildType (not under src): the five build
configurations the driver's build-type selector knows, fixed by the
spec's selector set {dbg, dev, opt, pgo, dev-san} and the driver's
doctests. -/
inductive BuildType
  | DBG
  | DEV
  | OPT
  | PGO
  | DEV_SAN
  deriving DecidableEq, Repr

/-- Python str.upper on a single character, restricted to the ASCII
range; characters are modelled as Unicode code points and the keyword
comparisons below involve ASCII only. -/
def upChar (c : Nat) : Nat := if 97 ≤ c ∧ c ≤ 122 then c - 32 else c

/-- Python str.upper over a string modelled as its list of code
points. -/
def pyUpper (s : List Nat) : List Nat := s.map upChar

/-- The code points of "DBG". -/
def sDBG : List Nat := [68, 66, 71]

/-- The code points of "DEV". -/
def sDEV : List Nat := [68, 69, 86]

/-- The code points of "OPT". -/
def sOPT : List Nat := [79, 80, 84]

/-- The code points of "PGO". -/
def sPGO : List Nat := [80, 71, 79]

/-- The code points of "DEV-SAN". -/
def sDEV_SAN : List Nat := [68, 69, 86, 45, 83, 65, 78]

/-- parse_string_to_build_type (driver_build_setup.py lines 62-103):
uppercase the argument, compare against the five keywords in order,
fall back to BuildType.DEV. -/
def parse_string_to_build_type (s : List Nat) : BuildType :=
  let b := pyUpper s
  if b = sDBG then .DBG
  else if b = sDEV then .DEV
  else if b = sOPT then .OPT
  else if b = sPGO then .PGO
  else if b = sDEV_SAN then .DEV_SAN
  else .DEV

theorem upChar_idem (c : Nat) : upChar (upChar c) = upChar c := by
  unfold upChar
  split_ifs <;> omega

theorem pyUpper_idem (s : List Nat) : pyUpper (pyUpper s) = pyUpper s := by
  induction s with
  | nil => rfl
  | cons c cs ih =>
    show upChar (upChar c) :: pyUpper (pyUpper cs) = upChar c :: pyUpper cs
    rw [upChar_idem, ih]

theorem parse_string_to_build_type_eq (s : List Nat) :
    parse_string_to_build_type s =
      if pyUpper s = sDBG then .DBG
      else if pyUpper s = sDEV then .DEV
      else if pyUpper s = sOPT then .OPT
      else if pyUpper s = sPGO then .PGO
      else if pyUpper s = sDEV_SAN then .DEV_SAN
      else .DEV :=
  rfl

/-- C8: parse_string_to_build_type is case-insensitive — it agrees
with itself on the uppercased input — returns DBG, OPT, PGO, DEV_SAN
exactly when the uppercased input is the respective keyword, returns
DEV on the keyword DEV, and returns DEV for every other input without
failing. -/
theorem parse_build_type_spec (s : List Nat) :
    parse_string_to_build_type s = parse_string_to_build_type (pyUpper s) ∧
    (parse_string_to_build_type s = .DBG ↔ pyUpper s = sDBG) ∧
    (pyUpper s = sDEV → parse_string_to_build_type s = .DEV) ∧
    (parse_string_to_build_type s = .OPT ↔ pyUpper s = sOPT) ∧
    (parse_string_to_build_type s = .PGO ↔ pyUpper s = sPGO) ∧
    (parse_string_to_build_type s = .DEV_SAN ↔ pyUpper s = sDEV_SAN) ∧
    (pyUpper s ≠ sDBG → pyUpper s ≠ sOPT → pyUpper s ≠ sPGO →
      pyUpper s ≠ sDEV_SAN → parse_string_to_build_type s = .DEV) := by
  rw [parse_string_to_build_type_eq, parse_string_to_build_type_eq, pyUpper_idem]
  refine ⟨rfl, ?_, ?_, ?_, ?_, ?_, ?_⟩ <;>
    · split_ifs <;> simp_all <;> decide

/-- C8 witness: the theorem applied at the concrete inputs "dbg"
(lowercase, code points 100 98 103) and "x" (code point 120). -/
theorem parse_build_type_spec_witness :
    parse_string_to_build_type [100, 98, 103] = BuildType.DBG ∧
    parse_string_to_build_type [120] = BuildType.DEV :=
  ⟨(parse_build_type_spec [100, 98, 103]).2.1.mpr (by decide),
   (parse_build_type_spec [120]).2.2.2.2.2.2
     (by decide) (by decide) (by decide) (by decide)⟩

end VaraTS
